import Mathlib

/-
Shallow embedding of `threestudio/systems/prolificzero123.py`, the
`ProlificZero123` training system (registered as "prolificzero123-system").

Modelling conventions:
* Real-valued scalars (scheduled loss weights `self.C(...)` and the scalar
  values of the individual loss terms) are embedded as integers `Int`; the
  claims under study are purely structural (which terms enter the total,
  multiplied by which scheduled weight, under which gating conditions), so
  any linearly ordered commutative ring is an adequate carrier and `Int`
  keeps every definition executable.
* Tensor computations delegated to the ML framework (`F.mse_loss`,
  renderer outputs, the guidance model, `binary_cross_entropy`, ...) are
  abstracted as scalar inputs of `training_step`: each input field records
  the value the corresponding framework expression would produce.
* Python's `dict` of guidance outputs is embedded as an association list
  `List (String × Int)` iterated in order, matching `for name, value in
  guidance_out.items()`.
* The side effects of a method (saving image sequences, deleting
  directories) are embedded as an explicit trace of filesystem operations.
-/

namespace ProlificZero123

/-- Python `str.startswith(pre)` on the receiver `s`, used at
`name.startswith("loss_")` (prolificzero123.py lines 154 and 176). -/
def pyStartsWith (s pre : String) : Bool :=
  pre.toList.isPrefixOf s.toList

/-- Fuel-indexed worker for `pyReplace`: replaces every non-overlapping
occurrence of `pat` in the character list, scanning left to right as Python
`str.replace` does. The fuel is instantiated with the length of the string,
which suffices because every step consumes at least one character. -/
def replaceList (pat rep : List Char) : Nat → List Char → List Char
  | _, [] => []
  | 0, s => s
  | Nat.succ fuel, c :: cs =>
      if pat.isPrefixOf (c :: cs) then
        rep ++ replaceList pat rep fuel ((c :: cs).drop pat.length)
      else
        c :: replaceList pat rep fuel cs

/-- Python `s.replace(pat, rep)` (for a non-empty pattern): every
non-overlapping occurrence of `pat` is replaced by `rep`, left to right. -/
def pyReplace (s pat rep : String) : String :=
  String.mk (replaceList pat.toList rep.toList s.toList.length s.toList)

/-- The schedule key looked up for a loss term, exactly
`name.replace("loss_", "lambda_")` (prolificzero123.py lines 156 and 177). -/
def lambdaName (n : String) : String :=
  pyReplace n "loss_" "lambda_"

/-- Python truthiness of an `Optional[str]` field: `None` and the empty
string are falsy, every other string is truthy.  Used for the
`self.cfg.from_coarse` and `not self.cfg.weights` tests (lines 48-49). -/
def optStrTruthy : Option String → Bool
  | none => false
  | some s => !s.isEmpty

/-- The configuration fields of `ProlificZero123.Config` (including the
inherited `BaseLift3DSystem.Config` fields) that the embedded methods read.
Opaque configuration dictionaries are carried as uninterpreted strings. -/
structure Config where
  geometry_type : String
  geometry : String
  refinement : Bool
  from_coarse : Option String
  weights : Option String
  inherit_coarse_texture : Bool
  guidance_eval_freq : Int
deriving DecidableEq

/-- The scene-representation object held in `self.geometry` when `configure`
returns.
* `fresh t c` records a plain construction
  `threestudio.find(self.cfg.geometry_type)(self.cfg.geometry)` (line 84).
* `createFrom ct cc t c copyNet` records the coarse-to-fine path
  (lines 65-82): a coarse geometry of type `ct` with (override-merged)
  config `cc` is built and loaded, and then
  `threestudio.find(self.cfg.geometry_type).create_from(self.geometry,
  self.cfg.geometry, copy_net=self.cfg.inherit_coarse_texture)` replaces it.
  Modelled from the spec: `create_from` itself is a method of the geometry
  classes and is not part of this file; following the spec's description of
  "replacing one scene representation with another, derived, representation
  while preserving learned texture", it derives the refined geometry from
  the loaded coarse geometry and copies the learned texture network exactly
  when its `copy_net` argument is true. -/
inductive Geometry where
  | fresh (geometryType geometryCfg : String)
  | createFrom (coarseGeometryType coarseGeometryCfg refineType refineCfg : String)
      (copyNet : Bool)
deriving DecidableEq

/-- Whether the geometry was produced by the coarse-to-fine `create_from`
path rather than built fresh. -/
def Geometry.isCreateFrom : Geometry → Bool
  | .fresh _ _ => false
  | .createFrom _ _ _ _ _ => true

/-- Whether the learned texture network of the coarse geometry was copied
into this geometry (the `copy_net` argument of `create_from`). A fresh
geometry inherits nothing. -/
def Geometry.copiesTextureNet : Geometry → Bool
  | .fresh _ _ => false
  | .createFrom _ _ _ _ copyNet => copyNet

/-- Observable outcome of `configure` (lines 37-96) for the claims under
study: the `requires_grad` flag of the background model, the geometry that
ends up in `self.geometry`, whether `self.load_weights(self.cfg.from_coarse)`
was called, and whether the intermediate coarse geometry object was
discarded (`del self.geometry; cleanup()`, lines 80-81). -/
structure ConfigureResult where
  backgroundRequiresGrad : Bool
  geometry : Geometry
  loadedCoarseWeights : Bool
  coarseGeometryDiscarded : Bool
deriving DecidableEq

/-- `ProlificZero123.configure` (prolificzero123.py lines 37-96).
`resumed` embeds the `self.resumed` property of the base system (whether the
run was resumed from a checkpoint).  `coarseGeomType` and `coarseGeomCfg`
embed `coarse_system_cfg.geometry_type` and the override-merged
`coarse_geometry_cfg` obtained by `load_config` from the yaml file stored
next to the coarse checkpoint (lines 55-64); config loading is an external
I/O helper, so the loaded values are inputs of the embedding.
The background model is constructed first and `requires_grad_(False)` is
applied to it exactly when `cfg.refinement` (lines 40-44; a freshly
constructed module is trainable by default).  Geometry is initialized from
the coarse stage exactly when `refinement` holds, `from_coarse` is truthy,
`weights` is falsy, and the run is not resumed (lines 46-51). -/
def configure (cfg : Config) (resumed : Bool)
    (coarseGeomType coarseGeomCfg : String) : ConfigureResult :=
  let bgRequiresGrad := !cfg.refinement
  if cfg.refinement && optStrTruthy cfg.from_coarse
      && !optStrTruthy cfg.weights && !resumed then
    { backgroundRequiresGrad := bgRequiresGrad
      geometry := Geometry.createFrom coarseGeomType coarseGeomCfg
        cfg.geometry_type cfg.geometry cfg.inherit_coarse_texture
      loadedCoarseWeights := true
      coarseGeometryDiscarded := true }
  else
    { backgroundRequiresGrad := bgRequiresGrad
      geometry := Geometry.fresh cfg.geometry_type cfg.geometry
      loadedCoarseWeights := false
      coarseGeometryDiscarded := false }

/-- Inputs of one call to `training_step` (lines 119-221).  `C` is the
scheduled-weight function: `C key` stands for `self.C(self.cfg.loss[key])`
(the schedule evaluated at the current step); the `..._val` fields stand for
the scalar values of the framework tensor expressions computed in the body:
* `loss_rgb_val`   : `F.mse_loss(gt_rgb, out["comp_rgb"])` (line 135)
* `loss_mask_val`  : `F.mse_loss(gt_mask.float(), out["opacity"])` (line 138)
* `loss_depth_val` : `F.mse_loss(valid_gt_depth, valid_pred_depth)` (line 150)
* `guidance_out`   : the named scalar outputs of `self.guidance(...)` (line 166)
* `normal_in_out`  : whether `"normal"` is a key of the random-camera render
  output `out` (line 181)
* `loss_orient_val`, `loss_sparsity_val`, `loss_opaque_val`,
  `loss_z_variance_val`, `loss_normal_consistency_val` : the corresponding
  regularization tensor expressions (lines 185-210). -/
structure StepInput where
  C : String → Int
  refinement : Bool
  guidance_eval_freq : Int
  true_global_step : Nat
  loss_rgb_val : Int
  loss_mask_val : Int
  loss_depth_val : Int
  guidance_out : List (String × Int)
  normal_in_out : Bool
  loss_orient_val : Int
  loss_sparsity_val : Int
  loss_opaque_val : Int
  loss_z_variance_val : Int
  loss_normal_consistency_val : Int

/-- Observable outcome of a successful `training_step`: the returned scalar
`loss`, the ordered list of named loss terms that were added into it
(name, raw value), and booleans recording which optional computations
actually ran in this step. -/
structure StepResult where
  loss : Int
  terms : List (String × Int)
  refRenderPerformed : Bool
  depthComputed : Bool
  orientAdded : Bool
  sparsityAdded : Bool
  opaqueAdded : Bool
  zVarianceAdded : Bool
  normalConsistencyAdded : Bool
  savedGuidanceEval : Bool
deriving DecidableEq

instance exceptDecEq {ε α : Type} [DecidableEq ε] [DecidableEq α] :
    DecidableEq (Except ε α)
  | .ok a, .ok b =>
      if h : a = b then isTrue (by rw [h]) else isFalse (by simp [h])
  | .ok _, .error _ => isFalse (by simp)
  | .error _, .ok _ => isFalse (by simp)
  | .error a, .error b =>
      if h : a = b then isTrue (by rw [h]) else isFalse (by simp [h])

/-- The accumulation loop
`for name, value in d.items(): self.log(...); if name.startswith("loss_"):
loss += value * self.C(self.cfg.loss[name.replace("loss_", "lambda_")])`
(lines 152-157 and 174-177), threading the running loss and also recording
each added term. -/
def weightedAdd (C : String → Int) :
    Int × List (String × Int) → List (String × Int) → Int × List (String × Int)
  | acc, [] => acc
  | (l, t), (n, v) :: rest =>
      if pyStartsWith n "loss_" then
        weightedAdd C (l + v * C (lambdaName n), t ++ [(n, v)]) rest
      else
        weightedAdd C (l, t) rest

/-- Specification-side quantity for the loss-composition claim: the sum over
a term list of each term's value multiplied by its scheduled weight
`C(cfg.loss.lambda_<name>)`. -/
def weightedSum (C : String → Int) (ts : List (String × Int)) : Int :=
  (ts.map (fun nv => nv.2 * C (lambdaName nv.1))).sum

/-- The reference (reconstruction) part of `training_step` (lines 122-157):
when `C(cfg.loss.lambda_rgb) > 0` the reference batch is rendered, `ref_out`
is populated with `loss_rgb`, `loss_mask` and (when additionally
`C(cfg.loss.lambda_depth) > 0`) `loss_depth`, and its items are folded into
the loss; otherwise nothing happens and the loss is still `0.0`. -/
def refPair (b : StepInput) : Int × List (String × Int) :=
  if 0 < b.C "lambda_rgb" then
    weightedAdd b.C (0, [])
      ([("loss_rgb", b.loss_rgb_val), ("loss_mask", b.loss_mask_val)] ++
        (if 0 < b.C "lambda_depth" then [("loss_depth", b.loss_depth_val)] else []))
  else (0, [])

/-- The loss and term list after also folding in the guidance outputs
(lines 174-177). -/
def guidancePair (b : StepInput) : Int × List (String × Int) :=
  weightedAdd b.C (refPair b) b.guidance_out

/-- The flag `guidance_eval = (self.cfg.guidance_eval_freq > 0 and
self.true_global_step % self.cfg.guidance_eval_freq == 0)` (lines 162-165);
`self.guidance_evaluation_save(...)` runs exactly when it is true
(lines 216-217). Python `%` on a non-negative left operand and positive
right operand agrees with `Int.emod`. -/
def guidance_eval_flag (freq : Int) (true_global_step : Nat) : Bool :=
  decide (0 < freq) && decide ((true_global_step : Int) % freq = 0)

/-- `ProlificZero123.training_step` (lines 119-221), embedded as a function
from the step inputs to either the raised `ValueError` (line 182) or the
observable result.  The control flow follows the source: the reference
branch gated on `C(lambda_rgb) > 0`, then the guidance outputs, then either
the coarse-stage regularization block (orientation gated on
`C(lambda_orient) > 0` with the `"normal" not in out` check raising
`ValueError`, followed by the unconditional sparsity, opaque and z-variance
terms) when `cfg.refinement` is false, or the mesh normal-consistency term
when it is true; finally the guidance-evaluation artifact is saved exactly
when the `guidance_eval` flag holds. -/
def training_step (b : StepInput) : Except String StepResult :=
  let refRender : Bool := decide (0 < b.C "lambda_rgb")
  let depthBranch : Bool := refRender && decide (0 < b.C "lambda_depth")
  let gp := guidancePair b
  let guidance_eval : Bool := guidance_eval_flag b.guidance_eval_freq b.true_global_step
  if b.refinement then
    Except.ok {
      loss := gp.1 + b.loss_normal_consistency_val * b.C "lambda_normal_consistency"
      terms := gp.2 ++ [("loss_normal_consistency", b.loss_normal_consistency_val)]
      refRenderPerformed := refRender
      depthComputed := depthBranch
      orientAdded := false
      sparsityAdded := false
      opaqueAdded := false
      zVarianceAdded := false
      normalConsistencyAdded := true
      savedGuidanceEval := guidance_eval }
  else
    let orientGate : Bool := decide (0 < b.C "lambda_orient")
    if orientGate && !b.normal_in_out then
      Except.error
        "Normal is required for orientation loss, no normal is found in the output."
    else
      let p2 :=
        if orientGate then
          (gp.1 + b.loss_orient_val * b.C "lambda_orient",
            gp.2 ++ [("loss_orient", b.loss_orient_val)])
        else gp
      Except.ok {
        loss := p2.1 + b.loss_sparsity_val * b.C "lambda_sparsity"
          + b.loss_opaque_val * b.C "lambda_opaque"
          + b.loss_z_variance_val * b.C "lambda_z_variance"
        terms := p2.2 ++ [("loss_sparsity", b.loss_sparsity_val)]
          ++ [("loss_opaque", b.loss_opaque_val)]
          ++ [("loss_z_variance", b.loss_z_variance_val)]
        refRenderPerformed := refRender
        depthComputed := depthBranch
        orientAdded := orientGate
        sparsityAdded := true
        opaqueAdded := true
        zVarianceAdded := true
        normalConsistencyAdded := false
        savedGuidanceEval := guidance_eval }

/-- One entry of the filesystem-effect trace of `on_validation_epoch_end`:
either `self.save_img_sequence(filestem, imgDir, matchStr,
save_format=fmt, fps=fps)` or `shutil.rmtree(<save_dir>/path)`; paths are
relative to the save directory. -/
inductive FsOp where
  | save_img_sequence (filestem imgDir matchStr fmt : String) (fps : Nat)
  | rmtree (path : String)
deriving DecidableEq

/-- Whether a trace entry deletes a saved artifact. -/
def FsOp.isRemoval : FsOp → Bool
  | .rmtree _ => true
  | _ => false

/-- The per-validation-epoch directory name `f"it{self.true_global_step}-val"`
(lines 279 and 290). -/
def valDirName (true_global_step : Nat) : String :=
  "it" ++ toString true_global_step ++ "-val"

/-- `ProlificZero123.on_validation_epoch_end` (lines 278-291) as its
filesystem-effect trace: assemble the mp4 from the per-frame directory,
then delete that directory. -/
def on_validation_epoch_end (true_global_step : Nat) : List FsOp :=
  let filestem := valDirName true_global_step
  [FsOp.save_img_sequence filestem filestem "(\\d+)\\.png" "mp4" 30,
    FsOp.rmtree filestem]

/-- Scheduled-weight function used by the concrete witness inputs: every
schedule key evaluates to weight 1. -/
def exC : String → Int := fun _ => 1

/-- Concrete coarse-stage witness input: all weights 1, guidance produces a
`loss_sds` term plus a non-loss diagnostic, the renderer reports a normal
map, and `guidance_eval_freq = 1` at global step 0. -/
def exIn1 : StepInput :=
  { C := exC
    refinement := false
    guidance_eval_freq := 1
    true_global_step := 0
    loss_rgb_val := 2
    loss_mask_val := 3
    loss_depth_val := 5
    guidance_out := [("loss_sds", 7), ("min_step", 11)]
    normal_in_out := true
    loss_orient_val := 13
    loss_sparsity_val := 17
    loss_opaque_val := 19
    loss_z_variance_val := 23
    loss_normal_consistency_val := 29 }

/-- Expected result of `training_step exIn1`. -/
def exR1 : StepResult :=
  { loss := 89
    terms := [("loss_rgb", 2), ("loss_mask", 3), ("loss_depth", 5),
      ("loss_sds", 7), ("loss_orient", 13), ("loss_sparsity", 17),
      ("loss_opaque", 19), ("loss_z_variance", 23)]
    refRenderPerformed := true
    depthComputed := true
    orientAdded := true
    sparsityAdded := true
    opaqueAdded := true
    zVarianceAdded := true
    normalConsistencyAdded := false
    savedGuidanceEval := true }

/-- Concrete refinement-stage witness input: like `exIn1` but with
`refinement = True` and a non-positive `guidance_eval_freq`. -/
def exIn2 : StepInput :=
  { exIn1 with refinement := true, guidance_eval_freq := 0 }

/-- Expected result of `training_step exIn2`. -/
def exR2 : StepResult :=
  { loss := 46
    terms := [("loss_rgb", 2), ("loss_mask", 3), ("loss_depth", 5),
      ("loss_sds", 7), ("loss_normal_consistency", 29)]
    refRenderPerformed := true
    depthComputed := true
    orientAdded := false
    sparsityAdded := false
    opaqueAdded := false
    zVarianceAdded := false
    normalConsistencyAdded := true
    savedGuidanceEval := false }

/-- Concrete input on which the orientation branch raises: coarse stage,
positive orientation weight, no normal in the render output. -/
def exErrIn : StepInput :=
  { exIn1 with normal_in_out := false }

/-- Concrete configuration taking the coarse-to-fine path with
`inherit_coarse_texture = False`. -/
def cfgNoInherit : Config :=
  { geometry_type := "tetrahedra-sdf-grid"
    geometry := "refine-geometry-cfg"
    refinement := true
    from_coarse := some "outputs/coarse/ckpts/last.ckpt"
    weights := none
    inherit_coarse_texture := false
    guidance_eval_freq := 1 }

/-- Concrete configuration taking the coarse-to-fine path with
`inherit_coarse_texture = True` (the default). -/
def cfgInherit : Config :=
  { cfgNoInherit with inherit_coarse_texture := true }

/-- Concrete configuration taking the fresh-geometry path. -/
def cfgFresh : Config :=
  { geometry_type := "implicit-volume"
    geometry := "coarse-geometry-cfg"
    refinement := false
    from_coarse := none
    weights := none
    inherit_coarse_texture := true
    guidance_eval_freq := 1 }

/-- Evaluating the schedule keys used by the direct (non-loop) additions:
these are helper facts relating the literal term names to the schedule keys
of `cfg.loss`. -/
theorem lambdaName_loss_sparsity : lambdaName "loss_sparsity" = "lambda_sparsity" := by
  decide

theorem lambdaName_loss_opaque : lambdaName "loss_opaque" = "lambda_opaque" := by
  decide

theorem lambdaName_loss_z_variance : lambdaName "loss_z_variance" = "lambda_z_variance" := by
  decide

theorem lambdaName_loss_orient : lambdaName "loss_orient" = "lambda_orient" := by
  decide

theorem lambdaName_loss_normal_consistency :
    lambdaName "loss_normal_consistency" = "lambda_normal_consistency" := by
  decide

theorem weightedSum_append_single (C : String → Int) (t : List (String × Int))
    (n : String) (v : Int) :
    weightedSum C (t ++ [(n, v)]) = weightedSum C t + v * C (lambdaName n) := by
  simp [weightedSum]

/-- The accumulation loop preserves the invariant "running loss equals the
weighted sum of the recorded terms". -/
theorem weightedAdd_preserves (C : String → Int) :
    ∀ (items : List (String × Int)) (p : Int × List (String × Int)),
      p.1 = weightedSum C p.2 →
      (weightedAdd C p items).1 = weightedSum C (weightedAdd C p items).2 := by
  intro items
  induction items with
  | nil =>
      intro p hp
      obtain ⟨l, t⟩ := p
      simpa [weightedAdd] using hp
  | cons nv rest ih =>
      intro p hp
      obtain ⟨l, t⟩ := p
      obtain ⟨n, v⟩ := nv
      cases hs : pyStartsWith n "loss_" with
      | true =>
          simp only [weightedAdd, hs, if_true]
          exact ih _ (by
            rw [weightedSum_append_single]
            exact congrArg (· + v * C (lambdaName n)) hp)
      | false =>
          simp only [weightedAdd, hs, Bool.false_eq_true, if_false]
          exact ih _ hp

theorem refPair_fst_eq (b : StepInput) :
    (refPair b).1 = weightedSum b.C (refPair b).2 := by
  unfold refPair
  split
  · exact weightedAdd_preserves b.C _ _ (by simp [weightedSum])
  · simp [weightedSum]

theorem guidancePair_fst_eq (b : StepInput) :
    (guidancePair b).1 = weightedSum b.C (guidancePair b).2 := by
  unfold guidancePair
  exact weightedAdd_preserves b.C _ _ (refPair_fst_eq b)

theorem refPair_zero_of_nonpos (b : StepInput) (h : b.C "lambda_rgb" ≤ 0) :
    refPair b = (0, []) := by
  unfold refPair
  rw [if_neg (not_lt.mpr h)]

theorem guidance_eval_flag_true_iff (freq : Int) (step : Nat) :
    guidance_eval_flag freq step = true ↔ (0 < freq ∧ freq ∣ (step : Int)) := by
  unfold guidance_eval_flag
  rw [Bool.and_eq_true, decide_eq_true_eq, decide_eq_true_eq]
  constructor
  · rintro ⟨h1, h2⟩
    exact ⟨h1, Int.dvd_of_emod_eq_zero h2⟩
  · rintro ⟨h1, h2⟩
    exact ⟨h1, Int.emod_eq_zero_of_dvd h2⟩

/-- C1: for every training step that returns, the returned scalar loss
equals the sum, over the named loss terms produced in that step (the
reference losses when computed, every guidance output whose name starts
with "loss_", and the stage-dependent regularization terms), of each term's
value multiplied by its scheduled weight `C(cfg.loss.lambda_<name>)`; no
term enters the total unweighted. -/
theorem training_step_loss_is_weighted_sum (b : StepInput) (r : StepResult)
    (h : training_step b = Except.ok r) :
    r.loss = weightedSum b.C r.terms := by
  have hgp := guidancePair_fst_eq b
  simp only [training_step] at h
  split at h
  · injection h with h
    subst h
    simp only
    rw [weightedSum_append_single, lambdaName_loss_normal_consistency, ← hgp]
  · split at h
    · exact absurd h (by simp)
    · injection h with h
      subst h
      simp only
      rw [weightedSum_append_single, weightedSum_append_single, weightedSum_append_single,
        lambdaName_loss_sparsity, lambdaName_loss_opaque, lambdaName_loss_z_variance]
      by_cases ho : (0 : Int) < b.C "lambda_orient"
      · rw [if_pos (decide_eq_true ho)]
        rw [weightedSum_append_single, lambdaName_loss_orient, ← hgp]
      · have hdf : ¬(decide ((0 : Int) < b.C "lambda_orient") = true) := by
          rw [decide_eq_false ho]
          exact Bool.false_ne_true
        rw [if_neg hdf, ← hgp]

/-- C1 witness: concrete evaluation of the theorem at `exIn1`. -/
theorem training_step_loss_is_weighted_sum_witness :
    training_step exIn1 = Except.ok exR1 ∧ exR1.loss = weightedSum exIn1.C exR1.terms :=
  ⟨by decide, training_step_loss_is_weighted_sum exIn1 exR1 (by decide)⟩

/-- C2: `configure` initializes the geometry from the coarse-stage
checkpoint if and only if `cfg.refinement` is true, `cfg.from_coarse` is set
(truthy), `cfg.weights` is not set, and the run is not resumed; in every
other case the geometry is built fresh from `cfg.geometry_type` and
`cfg.geometry`. -/
theorem configure_initializes_from_coarse_iff (cfg : Config) (resumed : Bool)
    (coarseGeomType coarseGeomCfg : String) :
    ((configure cfg resumed coarseGeomType coarseGeomCfg).geometry.isCreateFrom = true
      ↔ (cfg.refinement = true ∧ optStrTruthy cfg.from_coarse = true
          ∧ optStrTruthy cfg.weights = false ∧ resumed = false))
    ∧ ((configure cfg resumed coarseGeomType coarseGeomCfg).geometry.isCreateFrom = false →
        (configure cfg resumed coarseGeomType coarseGeomCfg).geometry
          = Geometry.fresh cfg.geometry_type cfg.geometry) := by
  constructor
  · simp only [configure]
    split
    case isTrue hcond =>
      simp only [Bool.and_eq_true, Bool.not_eq_true'] at hcond
      simp only [Geometry.isCreateFrom]
      constructor
      · intro _
        exact ⟨hcond.1.1.1, hcond.1.1.2, hcond.1.2, hcond.2⟩
      · intro _
        trivial
    case isFalse hcond =>
      simp only [Geometry.isCreateFrom]
      constructor
      · intro hfalse
        cases hfalse
      · rintro ⟨h1, h2, h3, h4⟩
        exact absurd (by rw [h1, h2, h3, h4]; rfl) hcond
  · simp only [configure]
    split
    · intro hq
      cases hq
    · intro _
      rfl

/-- C2 witness: a configuration with `refinement = False` builds the
geometry fresh. -/
theorem configure_initializes_from_coarse_iff_witness :
    (configure cfgFresh false "ct" "cc").geometry.isCreateFrom = false
    ∧ (configure cfgFresh false "ct" "cc").geometry
        = Geometry.fresh cfgFresh.geometry_type cfgFresh.geometry :=
  ⟨by decide, (configure_initializes_from_coarse_iff cfgFresh false "ct" "cc").2 (by decide)⟩

/-- C3 counterexample: a coarse-to-fine configuration with
`inherit_coarse_texture = False` does initialize from the coarse stage, yet
the texture network is not copied into the refined geometry — refuting the
claim that the learned texture is (unconditionally) preserved. -/
theorem configure_texture_not_preserved_counterexample :
    (configure cfgNoInherit false "implicit-volume" "coarse-geometry-cfg").geometry.isCreateFrom
        = true
    ∧ (configure cfgNoInherit false "implicit-volume"
          "coarse-geometry-cfg").geometry.copiesTextureNet = false := by
  decide

/-- C3 (amended): when initializing from the coarse stage, `configure`
replaces the loaded coarse geometry with a refined geometry derived from it
via `create_from`, the learned texture network is copied into the refined
geometry exactly when `cfg.inherit_coarse_texture` is true, the coarse
weights are loaded, and the coarse geometry object is then discarded. -/
theorem configure_create_from_replaces_geometry (cfg : Config) (resumed : Bool)
    (coarseGeomType coarseGeomCfg : String)
    (h : cfg.refinement = true ∧ optStrTruthy cfg.from_coarse = true
      ∧ optStrTruthy cfg.weights = false ∧ resumed = false) :
    (configure cfg resumed coarseGeomType coarseGeomCfg).geometry
        = Geometry.createFrom coarseGeomType coarseGeomCfg cfg.geometry_type cfg.geometry
            cfg.inherit_coarse_texture
    ∧ (configure cfg resumed coarseGeomType coarseGeomCfg).geometry.copiesTextureNet
        = cfg.inherit_coarse_texture
    ∧ (configure cfg resumed coarseGeomType coarseGeomCfg).coarseGeometryDiscarded = true
    ∧ (configure cfg resumed coarseGeomType coarseGeomCfg).loadedCoarseWeights = true := by
  obtain ⟨h1, h2, h3, h4⟩ := h
  simp [configure, h1, h2, h3, h4, Geometry.copiesTextureNet]

/-- C3 witness: concrete evaluation of the amended theorem with
`inherit_coarse_texture = True`. -/
theorem configure_create_from_replaces_geometry_witness :
    (configure cfgInherit false "implicit-volume" "coarse-geometry-cfg").geometry
        = Geometry.createFrom "implicit-volume" "coarse-geometry-cfg"
            cfgInherit.geometry_type cfgInherit.geometry cfgInherit.inherit_coarse_texture
    ∧ (configure cfgInherit false "implicit-volume"
          "coarse-geometry-cfg").geometry.copiesTextureNet
        = cfgInherit.inherit_coarse_texture
    ∧ (configure cfgInherit false "implicit-volume"
          "coarse-geometry-cfg").coarseGeometryDiscarded = true
    ∧ (configure cfgInherit false "implicit-volume"
          "coarse-geometry-cfg").loadedCoarseWeights = true :=
  configure_create_from_replaces_geometry cfgInherit false "implicit-volume"
    "coarse-geometry-cfg" (by decide)

/-- C4: the reference branch runs if and only if the scheduled weight
`C(cfg.loss.lambda_rgb)` is positive; within it the depth loss is computed
only when `C(cfg.loss.lambda_depth)` is additionally positive; and when
`C(cfg.loss.lambda_rgb)` is not positive the step's outcome does not depend
on the reconstruction values at all (no reference render, no reconstruction
contribution). -/
theorem training_step_reference_branch_gated (b : StepInput) (r : StepResult)
    (h : training_step b = Except.ok r) :
    (r.refRenderPerformed = true ↔ 0 < b.C "lambda_rgb")
    ∧ (r.depthComputed = true ↔ (0 < b.C "lambda_rgb" ∧ 0 < b.C "lambda_depth"))
    ∧ (b.C "lambda_rgb" ≤ 0 → ∀ x y z : Int,
        training_step { b with loss_rgb_val := x, loss_mask_val := y, loss_depth_val := z }
          = training_step b) := by
  refine ⟨?_, ?_, ?_⟩
  · simp only [training_step] at h
    split at h
    · injection h with h
      subst h
      simp
    · split at h
      · exact absurd h (by simp)
      · injection h with h
        subst h
        simp
  · simp only [training_step] at h
    split at h
    · injection h with h
      subst h
      simp
    · split at h
      · exact absurd h (by simp)
      · injection h with h
        subst h
        simp
  · intro hl x y z
    have hmod :
        refPair { b with loss_rgb_val := x, loss_mask_val := y, loss_depth_val := z }
          = (0, []) :=
      refPair_zero_of_nonpos _ hl
    have hb : refPair b = (0, []) := refPair_zero_of_nonpos b hl
    simp only [training_step, guidancePair, hmod, hb]

/-- C4 witness: concrete evaluation of the theorem at `exIn1`. -/
theorem training_step_reference_branch_gated_witness :
    training_step exIn1 = Except.ok exR1
    ∧ (exR1.refRenderPerformed = true ↔ 0 < exIn1.C "lambda_rgb")
    ∧ (exR1.depthComputed = true ↔ (0 < exIn1.C "lambda_rgb" ∧ 0 < exIn1.C "lambda_depth")) :=
  ⟨by decide, (training_step_reference_branch_gated exIn1 exR1 (by decide)).1,
    (training_step_reference_branch_gated exIn1 exR1 (by decide)).2.1⟩

/-- C5: exactly one of the two disjoint regularization branches runs,
selected by `cfg.refinement`: in the coarse stage the sparsity, opacity and
z-variance terms are added (and the orientation term exactly when
`C(cfg.loss.lambda_orient) > 0`) and the normal-consistency term is not;
in the refinement stage only the mesh normal-consistency term is added and
none of the four coarse-stage regularization terms is computed. -/
theorem training_step_regularization_branches (b : StepInput) (r : StepResult)
    (h : training_step b = Except.ok r) :
    (b.refinement = false →
      r.sparsityAdded = true ∧ r.opaqueAdded = true ∧ r.zVarianceAdded = true
      ∧ r.normalConsistencyAdded = false
      ∧ (r.orientAdded = true ↔ 0 < b.C "lambda_orient"))
    ∧ (b.refinement = true →
      r.normalConsistencyAdded = true ∧ r.orientAdded = false
      ∧ r.sparsityAdded = false ∧ r.opaqueAdded = false ∧ r.zVarianceAdded = false) := by
  simp only [training_step] at h
  split at h
  case isTrue hb =>
    injection h with h
    subst h
    constructor
    · intro hf
      rw [hf] at hb
      cases hb
    · intro _
      exact ⟨rfl, rfl, rfl, rfl, rfl⟩
  case isFalse hb =>
    split at h
    · exact absurd h (by simp)
    · injection h with h
      subst h
      constructor
      · intro _
        refine ⟨rfl, rfl, rfl, rfl, ?_⟩
        simp
      · intro ht
        exact absurd ht hb

/-- C5 witness: concrete evaluation of the theorem at the refinement-stage
input `exIn2`. -/
theorem training_step_regularization_branches_witness :
    training_step exIn2 = Except.ok exR2
    ∧ (exR2.normalConsistencyAdded = true ∧ exR2.orientAdded = false
      ∧ exR2.sparsityAdded = false ∧ exR2.opaqueAdded = false
      ∧ exR2.zVarianceAdded = false) :=
  ⟨by decide, (training_step_regularization_branches exIn2 exR2 (by decide)).2 (by decide)⟩

/-- C6: in a training step that completes, the guidance-evaluation
visualization artifact is serialized if and only if
`cfg.guidance_eval_freq > 0` and `true_global_step` is divisible by
`cfg.guidance_eval_freq`; in particular, when `cfg.guidance_eval_freq <= 0`
it is never saved at any step. -/
theorem training_step_guidance_eval_saved_iff (b : StepInput) (r : StepResult)
    (h : training_step b = Except.ok r) :
    (r.savedGuidanceEval = true ↔
      (0 < b.guidance_eval_freq ∧ b.guidance_eval_freq ∣ (b.true_global_step : Int)))
    ∧ (b.guidance_eval_freq ≤ 0 → r.savedGuidanceEval = false) := by
  have hsaved : r.savedGuidanceEval
      = guidance_eval_flag b.guidance_eval_freq b.true_global_step := by
    simp only [training_step] at h
    split at h
    · injection h with h
      subst h
      rfl
    · split at h
      · exact absurd h (by simp)
      · injection h with h
        subst h
        rfl
  rw [hsaved]
  constructor
  · exact guidance_eval_flag_true_iff b.guidance_eval_freq b.true_global_step
  · intro hle
    have hnot : ¬(0 < b.guidance_eval_freq) := not_lt.mpr hle
    simp [guidance_eval_flag, hnot]

/-- C6 witness: concrete evaluation of the theorem at `exIn1`
(`guidance_eval_freq = 1`, step 0, artifact saved). -/
theorem training_step_guidance_eval_saved_iff_witness :
    training_step exIn1 = Except.ok exR1
    ∧ (exR1.savedGuidanceEval = true ↔
        (0 < exIn1.guidance_eval_freq
          ∧ exIn1.guidance_eval_freq ∣ (exIn1.true_global_step : Int))) :=
  ⟨by decide, (training_step_guidance_eval_saved_iff exIn1 exR1 (by decide)).1⟩

/-- C7: `training_step` raises `ValueError` (with exactly the message of
line 182) if and only if `cfg.refinement` is false, the scheduled
orientation weight is positive, and the random-camera render output has no
"normal" key; under every other combination no error is raised. -/
theorem training_step_value_error_iff (b : StepInput) :
    ∀ e : String,
      training_step b = Except.error e ↔
        (e = "Normal is required for orientation loss, no normal is found in the output."
          ∧ b.refinement = false ∧ 0 < b.C "lambda_orient" ∧ b.normal_in_out = false) := by
  intro e
  cases hbr : b.refinement with
  | true =>
      simp [training_step, hbr]
  | false =>
      cases hno : b.normal_in_out with
      | true =>
          simp [training_step, hbr, hno]
      | false =>
          by_cases ho : (0 : Int) < b.C "lambda_orient"
          · simp [training_step, hbr, hno, ho, eq_comm]
          · simp [training_step, hbr, hno, ho]

/-- C8: the filesystem-effect trace of `on_validation_epoch_end` deletes
exactly the per-frame validation directory `it<step>-val` and nothing else,
and the deletion is the last effect, performed after the mp4 image sequence
has been assembled from those frames. -/
theorem on_validation_epoch_end_removes_only_val_dir (true_global_step : Nat) :
    ((on_validation_epoch_end true_global_step).filter FsOp.isRemoval
        = [FsOp.rmtree (valDirName true_global_step)])
    ∧ ((on_validation_epoch_end true_global_step).getLast?
        = some (FsOp.rmtree (valDirName true_global_step)))
    ∧ ((on_validation_epoch_end true_global_step).head?
        = some (FsOp.save_img_sequence (valDirName true_global_step)
            (valDirName true_global_step) "(\\d+)\\.png" "mp4" 30)) :=
  ⟨rfl, rfl, rfl⟩

/-- C9: after `configure`, the background model's parameters require
gradients exactly when `cfg.refinement` is false: the background is frozen
for the refinement stage and left trainable in the coarse stage. -/
theorem configure_background_requires_grad (cfg : Config) (resumed : Bool)
    (coarseGeomType coarseGeomCfg : String) :
    (configure cfg resumed coarseGeomType coarseGeomCfg).backgroundRequiresGrad
      = !cfg.refinement := by
  unfold configure
  split <;> rfl

end ProlificZero123
